import Mathlib

/-
Shallow embedding of `src/optparse.rs` of cargo-boj: the command/option
model of the CLI, the language-selector and code-open token parsers, and
the language resolver.  A 64-bit target is assumed, so Rust's `usize` is
modelled as a natural number reduced modulo 2^64 where casts occur.
Panics (from `unwrap`) are modelled by an `Option` codomain: `none` is a
panic, `some n` a normal return.
-/

set_option autoImplicit false

namespace CargoBoj

/-- Width of `usize`/`u64` on the assumed 64-bit target. -/
def usizeSize : Nat := 2 ^ 64

/-- Embedding of `serde_json::Number` (external library type used by the
language table): an integer stored as a `u64` (`posInt`, value below 2^64),
a negative integer stored as an `i64` (`negInt`), or a float.  The float
payload is irrelevant to every function modelled here (`as_i64` ignores
it), so it is not carried. -/
inductive JsonNumber where
  | posInt (n : Nat)
  | negInt (n : Int)
  | float
deriving DecidableEq

/-- Embedding of `serde_json::Value`, as far as the code looks at it: a
number, or any other kind of JSON value (null, bool, string, array,
object), whose payloads the code never inspects. -/
inductive JsonValue where
  | num (j : JsonNumber)
  | null
  | bool (b : Bool)
  | str (s : String)
  | arr
  | obj
deriving DecidableEq

/-- `serde_json::Number::as_i64`: an integer representable as `i64` is
returned; a float, or an integer at or above 2^63, yields `None`. -/
def JsonNumber.as_i64 : JsonNumber → Option Int
  | .posInt n => if n ≤ 2 ^ 63 - 1 then some (n : Int) else none
  | .negInt n => some n
  | .float => none

/-- Rust's `as usize` cast from `i64` on a 64-bit target: two's-complement
wraparound, i.e. the value modulo 2^64. -/
def i64AsUsize (i : Int) : Nat := (i % (usizeSize : Int)).toNat

/-- The externally loaded name-to-value table (`LanguageTypes` from
`datastore`, not under `src/`).  Modelled from the spec: a read-only
associative structure mapping name strings to arbitrary JSON values,
passed to the resolver as an explicit argument instead of being loaded
from disk inside it. -/
abbrev LanguageTable : Type := List (String × JsonValue)

/-- Whether a table value is harmless to `as_i64().unwrap()`: any
non-number, or a number representable as `i64`. -/
def JsonValue.i64Representable : JsonValue → Bool
  | .num j => (j.as_i64).isSome
  | _ => true

/-- `serde_json::Map::get`: first entry whose key equals the query,
case-sensitive exact string match. -/
def tableGet : LanguageTable → String → Option JsonValue
  | [], _ => none
  | (k, v) :: rest, s => if k = s then some v else tableGet rest s

/-- Rust `str::parse::<usize>` on a 64-bit target: an optional leading
`+`, then one or more ASCII decimal digits, and the value must fit in 64
bits; anything else (empty string, other characters, a `-` sign,
overflow) is a parse error, modelled as `none`. -/
def parseUsize (s : String) : Option Nat :=
  let ds := match s.data with
    | '+' :: rest => rest
    | cs => cs
  if ds = [] then none
  else if ds.all (fun c => c.isDigit) then
    let n := ds.foldl (fun acc c => acc * 10 + (c.toNat - 48)) 0
    if n < usizeSize then some n else none
  else none

/-- `LanguageType` from `optparse.rs`: a numeric judge ID or a free-text
language name. -/
inductive LanguageType where
  | Id (id : Nat)
  | Name (name : String)
deriving DecidableEq

/-- `LanguageTypeError` from `optparse.rs` (unit error struct). -/
inductive LanguageTypeError where
  | mk
deriving DecidableEq

/-- The `Display` text of `LanguageTypeError`. -/
def LanguageTypeError.message : LanguageTypeError → String :=
  fun _ => "provided language id or name is not available"

/-- `impl FromStr for LanguageType`: try `s.parse::<usize>()`; on success
produce `Id`, on failure produce `Name` with the original string.  Both
branches return `Ok`. -/
def LanguageType.from_str (s : String) : Except LanguageTypeError LanguageType :=
  match parseUsize s with
  | some id => .ok (.Id id)
  | none => .ok (.Name s)

/-- `get_language_id_from_str` from `optparse.rs`, with the loaded table
passed explicitly: look the name up; on a JSON number run
`as_i64().unwrap() as usize` (`none` models the unwrap panicking); on a
missing key or a non-number value return 113. -/
def get_language_id_from_str (table : LanguageTable) (s : String) : Option Nat :=
  match tableGet table s with
  | some (JsonValue.num id) =>
    match id.as_i64 with
    | some i => some (i64AsUsize i)
    | none => none
  | _ => some 113

/-- `get_language_id` from `optparse.rs`: a numeric ID passes through
unchanged, a name is resolved through the table, absence gives the
default 113. -/
def get_language_id (table : LanguageTable) : Option LanguageType → Option Nat
  | some (LanguageType.Id id) => some id
  | some (LanguageType.Name name) => get_language_id_from_str table name
  | none => some 113

/-- `CodeOpen` from `optparse.rs`: the code-visibility policy. -/
inductive CodeOpen where
  | Yes
  | No
  | YesOnAc
deriving DecidableEq

/-- `ParseError` from `optparse.rs` (unit error struct for code-open). -/
inductive ParseError where
  | mk
deriving DecidableEq

/-- The `Display` text of `ParseError`. -/
def ParseError.message : ParseError → String :=
  fun _ => "provided string was not `y`, `n`, or `ac`"

/-- `impl FromStr for CodeOpen`: exact match on the three literals `y`,
`n`, `ac`; everything else is `Err(ParseError)`. -/
def CodeOpen.from_str (s : String) : Except ParseError CodeOpen :=
  if s = "y" then .ok .Yes
  else if s = "n" then .ok .No
  else if s = "ac" then .ok .YesOnAc
  else .error .mk

/-- `impl ToString for CodeOpen`: the wire representation sent to the
judge. -/
def CodeOpen.to_string : CodeOpen → String
  | .Yes => "open"
  | .No => "close"
  | .YesOnAc => "onlyaccepted"

/-- `Cookies` from `datastore` (not under `src/`).  Modelled from the
spec: two named string fields, the login-session cookie and the
online-judge session cookie. -/
structure Cookies where
  bojautologin : String
  onlinejudge : String

/-- `Login` from `optparse.rs`. -/
structure Login where
  cookies : Option Cookies

/-- `BinOrCmd` from `optparse.rs`: tagged union holding a bin name or a
command line, never both. -/
inductive BinOrCmd where
  | Bin (s : String)
  | Cmd (s : String)

/-- Whether a `BinOrCmd` is the `Bin` variant. -/
def BinOrCmd.isBin : BinOrCmd → Bool
  | .Bin _ => true
  | .Cmd _ => false

/-- Whether a `BinOrCmd` is the `Cmd` variant. -/
def BinOrCmd.isCmd : BinOrCmd → Bool
  | .Bin _ => false
  | .Cmd _ => true

/-- `Test` from `optparse.rs`. -/
structure Test where
  problem_id : String
  bin_or_cmd : Option BinOrCmd
  spj_prompt : Bool
  refresh : Bool

/-- `Submit` from `optparse.rs`. -/
structure Submit where
  problem_id : String
  path : Option String
  language : Option LanguageType
  code_open : Option CodeOpen

/-- `Opts` from `optparse.rs`: the three mutually exclusive commands. -/
inductive Opts where
  | Login (l : Login)
  | Test (t : Test)
  | Submit (s : Submit)

/-- A usage error of the argument-parsing layer (bpaf): the process exits
with a usage message; the message text is out of scope. -/
inductive UsageError where
  | mk
deriving DecidableEq

/-- Accumulator for the scan of `test` subcommand arguments. -/
structure TestAcc where
  pid : Option String
  bin : Option String
  cmd : Option String
  spj : Bool
  refresh : Bool

/-- Modelled from the spec: the bpaf scan of the `test` subcommand's
argument list in `cargo_boj_test` (bpaf is the external argument-parsing
collaborator).  `-b`/`--bin` and `-c`/`--cmd` each consume the following
token as their value, `-p`/`--spj-prompt` and `-r`/`--refresh` are
switches, the first other token is the `PID` positional; a missing flag
value, a repeated flag or a second positional is a usage error. -/
def testScan : List String → TestAcc → Except UsageError TestAcc
  | [], acc => .ok acc
  | a :: rest, acc =>
    if a = "-b" ∨ a = "--bin" then
      match rest with
      | v :: rest2 =>
        if acc.bin.isSome then .error .mk
        else testScan rest2 { acc with bin := some v }
      | [] => .error .mk
    else if a = "-c" ∨ a = "--cmd" then
      match rest with
      | v :: rest2 =>
        if acc.cmd.isSome then .error .mk
        else testScan rest2 { acc with cmd := some v }
      | [] => .error .mk
    else if a = "-p" ∨ a = "--spj-prompt" then
      testScan rest { acc with spj := true }
    else if a = "-r" ∨ a = "--refresh" then
      testScan rest { acc with refresh := true }
    else
      if acc.pid.isSome then .error .mk
      else testScan rest { acc with pid := some a }

/-- Modelled from the spec: assembly of the `Test` value in
`cargo_boj_test`.  The `construct!([bin, cmd])` alternation means an
invocation supplying both `-b` and `-c` fails with a usage error before
a `Test` value exists (the branch that wins leaves the other flag
unconsumed); the `PID` positional is required. -/
def parse_test (args : List String) : Except UsageError Test :=
  match testScan args ⟨none, none, none, false, false⟩ with
  | .error e => .error e
  | .ok acc =>
    match acc.pid with
    | none => .error .mk
    | some pid =>
      match acc.bin, acc.cmd with
      | some _, some _ => .error .mk
      | some b, none => .ok ⟨pid, some (.Bin b), acc.spj, acc.refresh⟩
      | none, some c => .ok ⟨pid, some (.Cmd c), acc.spj, acc.refresh⟩
      | none, none => .ok ⟨pid, none, acc.spj, acc.refresh⟩

/-- Accumulator for the scan of `login` subcommand arguments. -/
structure LoginAcc where
  boj : Option String
  oj : Option String

/-- Modelled from the spec: the bpaf scan of the `login` subcommand's
argument list in `cargo_boj_login`.  `--bojautologin` and `--onlinejudge`
each consume the following token as their value; any other token, a
missing value or a repeated flag is a usage error. -/
def loginScan : List String → LoginAcc → Except UsageError LoginAcc
  | [], acc => .ok acc
  | a :: rest, acc =>
    if a = "--bojautologin" then
      match rest with
      | v :: rest2 =>
        if acc.boj.isSome then .error .mk
        else loginScan rest2 { acc with boj := some v }
      | [] => .error .mk
    else if a = "--onlinejudge" then
      match rest with
      | v :: rest2 =>
        if acc.oj.isSome then .error .mk
        else loginScan rest2 { acc with oj := some v }
      | [] => .error .mk
    else .error .mk

/-- Modelled from the spec: assembly of the `Login` value in
`cargo_boj_login`.  The cookie pair is one optional unit
(`construct!(Cookies { .. }).optional()`): both flags give a full
`Cookies`, neither gives `None`, and exactly one is a usage error of the
parsing layer (the lone flag is left unconsumed once the inner pair
parser fails), so no partial pair is ever assembled. -/
def parse_login (args : List String) : Except UsageError Login :=
  match loginScan args ⟨none, none⟩ with
  | .error e => .error e
  | .ok acc =>
    match acc.boj, acc.oj with
    | some a, some b => .ok ⟨some ⟨a, b⟩⟩
    | none, none => .ok ⟨none⟩
    | _, _ => .error .mk

/-- A successful `tableGet` finds one of the table's entries. -/
theorem tableGet_mem {t : LanguageTable} {s : String} {v : JsonValue}
    (h : tableGet t s = some v) : ∃ k, (k, v) ∈ t := by
  induction t with
  | nil => simp [tableGet] at h
  | cons p rest ih =>
    obtain ⟨k, w⟩ := p
    simp only [tableGet] at h
    split at h
    · injection h with h
      subst h
      exact ⟨k, List.mem_cons_self _ _⟩
    · obtain ⟨k', hm⟩ := ih h
      exact ⟨k', List.mem_cons_of_mem _ hm⟩

/-- C1 (counterexample): with a table mapping the queried name to a
non-integer JSON number (a float), `get_language_id_from_str` does not
return an unsigned integer — the `as_i64` conversion yields `None` and
the `unwrap` panics (modelled as `none`), so the unwrap is reachable. -/
theorem c1_unwrap_reachable :
    get_language_id_from_str [("x", JsonValue.num JsonNumber.float)] "x" = none := rfl

/-- C1 (amended): language-name resolution is total for every name
string and every table whose JSON-number values are all representable as
`i64`; over such tables `get_language_id_from_str` always returns an
unsigned integer and the unwrap cannot panic.  (As stated over arbitrary
tables the claim fails: a number value that is a float, or an integer at
or above 2^63, makes the unwrap panic.) -/
theorem c1_resolution_total_on_i64_tables (table : LanguageTable) (s : String)
    (h : (table.all fun p => p.2.i64Representable) = true) :
    (get_language_id_from_str table s).isSome = true := by
  unfold get_language_id_from_str
  cases heq : tableGet table s with
  | none => rfl
  | some v =>
    cases v with
    | num j =>
      obtain ⟨k, hm⟩ := tableGet_mem heq
      have hp := (List.all_eq_true.mp h) _ hm
      simp only [JsonValue.i64Representable] at hp
      cases hi : j.as_i64 with
      | none => rw [hi] at hp; simp at hp
      | some i => simp [hi]
    | null => rfl
    | bool b => rfl
    | str s' => rfl
    | arr => rfl
    | obj => rfl

/-- C1 (witness for the amended theorem): over the table mapping
`python3` to the integer 28 the resolver returns an unsigned integer. -/
theorem c1_resolution_total_witness :
    ((List.all [("python3", JsonValue.num (JsonNumber.posInt 28))]
      fun p => p.2.i64Representable) = true) ∧
    (get_language_id_from_str
      [("python3", JsonValue.num (JsonNumber.posInt 28))] "python3").isSome = true :=
  ⟨by decide,
   c1_resolution_total_on_i64_tables
     [("python3", JsonValue.num (JsonNumber.posInt 28))] "python3" (by decide)⟩

/-- C2: `LanguageType.from_str` maps every string the `usize` parse
accepts to `Ok(Id n)` with `n` the parsed integer, every string it
rejects to `Ok(Name s)` with the string unchanged, and never returns an
`Err` for any input. -/
theorem language_type_from_str_total (s : String) :
    (∀ n, parseUsize s = some n → LanguageType.from_str s = .ok (.Id n)) ∧
    (parseUsize s = none → LanguageType.from_str s = .ok (.Name s)) ∧
    ∃ v, LanguageType.from_str s = .ok v := by
  refine ⟨fun n hn => ?_, fun hn => ?_, ?_⟩
  · unfold LanguageType.from_str
    rw [hn]
  · unfold LanguageType.from_str
    rw [hn]
  · unfold LanguageType.from_str
    cases parseUsize s
    · exact ⟨_, rfl⟩
    · exact ⟨_, rfl⟩

/-- C2 (witness): a numeric token becomes `Id`, a non-numeric one
becomes `Name`. -/
theorem language_type_from_str_total_witness :
    LanguageType.from_str "42" = .ok (.Id 42) ∧
    LanguageType.from_str "abc" = .ok (.Name "abc") :=
  ⟨(language_type_from_str_total "42").1 42 (by decide),
   (language_type_from_str_total "abc").2.1 (by decide)⟩

/-- C3: `CodeOpen.from_str` accepts exactly the literals `y`, `n`, `ac`,
and rejects every other string with the typed `ParseError` — in
particular the near-misses `Y`, a space before `y`, `yes` and `AC`. -/
theorem code_open_from_str_exact :
    CodeOpen.from_str "y" = .ok .Yes ∧
    CodeOpen.from_str "n" = .ok .No ∧
    CodeOpen.from_str "ac" = .ok .YesOnAc ∧
    (∀ s : String, s ≠ "y" → s ≠ "n" → s ≠ "ac" →
      CodeOpen.from_str s = .error .mk) ∧
    CodeOpen.from_str "Y" = .error .mk ∧
    CodeOpen.from_str " y" = .error .mk ∧
    CodeOpen.from_str "yes" = .error .mk ∧
    CodeOpen.from_str "AC" = .error .mk := by
  refine ⟨rfl, rfl, rfl, fun s h1 h2 h3 => ?_, rfl, rfl, rfl, rfl⟩
  simp [CodeOpen.from_str, h1, h2, h3]

/-- C3 (witness): an arbitrary other string is rejected. -/
theorem code_open_from_str_exact_witness :
    CodeOpen.from_str "hello" = .error .mk :=
  code_open_from_str_exact.2.2.2.1 "hello" (by decide) (by decide) (by decide)

/-- C4: a `test` invocation supplying both the bin flag and the cmd flag
fails with a usage error before any `Test` value is constructed (in
either flag order and for any flag values), and `BinOrCmd` is a tagged
union that can hold a bin selector or a cmd selector but never both. -/
theorem test_bin_cmd_mutually_exclusive :
    (∀ b c : String, parse_test ["1000", "-b", b, "-c", c] = .error .mk) ∧
    (∀ b c : String, parse_test ["1000", "-c", c, "-b", b] = .error .mk) ∧
    (∀ x : BinOrCmd, (x.isBin && x.isCmd) = false) := by
  refine ⟨fun b c => rfl, fun b c => rfl, fun x => ?_⟩
  cases x <;> rfl

/-- C5: the login cookie pair is all-or-nothing: supplying neither flag
yields `cookies = none`, supplying both yields a full `Cookies` value,
supplying exactly one of the two is a usage error of the parsing layer,
and every representable `Login` carries either no `Cookies` or a
`Cookies` with both string sub-fields present. -/
theorem login_cookie_pair_all_or_nothing :
    (∀ v : String, parse_login ["--bojautologin", v] = .error .mk) ∧
    (∀ v : String, parse_login ["--onlinejudge", v] = .error .mk) ∧
    parse_login [] = .ok ⟨none⟩ ∧
    (∀ a b : String,
      parse_login ["--bojautologin", a, "--onlinejudge", b] = .ok ⟨some ⟨a, b⟩⟩) ∧
    (∀ l : Login, l.cookies = none ∨ ∃ a b, l.cookies = some ⟨a, b⟩) := by
  refine ⟨fun v => rfl, fun v => rfl, rfl, fun a b => rfl, fun l => ?_⟩
  rcases l with ⟨_ | ⟨a, b⟩⟩
  · exact Or.inl rfl
  · exact Or.inr ⟨a, b, rfl⟩

/-- C6 (counterexample): a table can map a name to an integer JSON
number (2^63, an integer a JSON file can hold in a `u64`) on which
resolution does not return that id cast to an unsigned integer — the
`as_i64` conversion fails and the unwrap panics (modelled as `none`). -/
theorem name_resolution_big_int_panics :
    get_language_id [("big", JsonValue.num (JsonNumber.posInt (2 ^ 63)))]
      (some (.Name "big")) = none := rfl

/-- C6 (amended): name resolution consults the table by case-sensitive
exact key match; if the stored value is a JSON number representable as
`i64` (in particular any integer id below 2^63 such as 28), the id is
returned cast to an unsigned integer, and if the key is absent or the
stored value is not a JSON number the default 113 is returned.  (As
stated the claim fails for integer JSON numbers at or above 2^63, where
the unwrap panics instead.) -/
theorem name_resolution_table_lookup (table : LanguageTable) (s : String) :
    (∀ j i, tableGet table s = some (JsonValue.num j) → j.as_i64 = some i →
      get_language_id table (some (.Name s)) = some (i64AsUsize i)) ∧
    (tableGet table s = none → get_language_id table (some (.Name s)) = some 113) ∧
    (∀ v, tableGet table s = some v → (∀ j, v ≠ JsonValue.num j) →
      get_language_id table (some (.Name s)) = some 113) := by
  refine ⟨fun j i hj hi => ?_, fun hn => ?_, fun v hv hnum => ?_⟩
  · simp only [get_language_id, get_language_id_from_str, hj, hi]
  · simp only [get_language_id, get_language_id_from_str, hn]
  · cases v with
    | num j => exact absurd rfl (hnum j)
    | null => simp only [get_language_id, get_language_id_from_str, hv]
    | bool b => simp only [get_language_id, get_language_id_from_str, hv]
    | str s' => simp only [get_language_id, get_language_id_from_str, hv]
    | arr => simp only [get_language_id, get_language_id_from_str, hv]
    | obj => simp only [get_language_id, get_language_id_from_str, hv]

/-- C6 (witness for the amended theorem): a table holding `python3 ↦ 28`
resolves the name `python3` to 28, and an empty table resolves the name
`nope` to the default 113. -/
theorem name_resolution_table_lookup_witness :
    get_language_id [("python3", JsonValue.num (JsonNumber.posInt 28))]
      (some (.Name "python3")) = some 28 ∧
    get_language_id [] (some (.Name "nope")) = some 113 :=
  ⟨(name_resolution_table_lookup
      [("python3", JsonValue.num (JsonNumber.posInt 28))] "python3").1
      (JsonNumber.posInt 28) 28 rfl rfl,
   (name_resolution_table_lookup [] "nope").2.1 rfl⟩

/-- C7: with no language selector supplied, resolution returns the fixed
default language ID 113, whatever the table holds. -/
theorem resolve_none_default (table : LanguageTable) :
    get_language_id table none = some 113 := rfl

/-- C8: a numeric language ID passes through resolution unchanged for
every unsigned integer, with no bounds check; the result never depends
on the table, which is not consulted. -/
theorem resolve_id_passthrough (table : LanguageTable) (n : Nat) :
    get_language_id table (some (.Id n)) = some n := rfl

/-- C9: the wire representation of `CodeOpen` is exactly `open`,
`close`, `onlyaccepted` for `Yes`, `No`, `YesOnAc`, and these three
values exhaust the enum. -/
theorem code_open_wire_strings :
    CodeOpen.to_string .Yes = "open" ∧
    CodeOpen.to_string .No = "close" ∧
    CodeOpen.to_string .YesOnAc = "onlyaccepted" ∧
    (∀ c : CodeOpen, c = .Yes ∨ c = .No ∨ c = .YesOnAc) := by
  refine ⟨rfl, rfl, rfl, fun c => ?_⟩
  cases c
  · exact Or.inl rfl
  · exact Or.inr (Or.inl rfl)
  · exact Or.inr (Or.inr rfl)

/-- C10: a table entry holding the negative integer -1 neither falls
back to 113 nor errors: `as_i64` succeeds and the `as usize` cast wraps
two's-complement, yielding 2^64 - 1 on the 64-bit target. -/
theorem negative_table_value_wraps :
    get_language_id_from_str [("x", JsonValue.num (JsonNumber.negInt (-1)))] "x"
      = some (2 ^ 64 - 1) := by decide

end CargoBoj
